import Mathlib

/-
Verification of the E-WIZZ electricity-monitoring backend
(src/backend/server.py) against its natural-language specification.

The billing and consumption-aggregation engine is shallowly embedded:

* Stored UTC datetimes are modelled as a record of calendar fields `DT`.
  The server serializes every datetime with `isoformat()` and MongoDB
  compares the resulting strings lexicographically; for timezone-aware
  UTC datetimes that string order coincides with chronological order, so
  the embedding compares timestamps through `toMicro`, the absolute
  number of microseconds since 1970-01-01 (days-from-civil algorithm,
  proleptic Gregorian).
* Python floats are modelled as exact rationals (`ℚ`); `round(x, 2)` is
  modelled as round-half-even at two decimals (`round2`).
* The MongoDB collections live in `DBState`; each endpoint becomes a
  function from an explicit `now`, its request parameters and the state
  to a result together with the successor state (writes are the only way
  the state changes).  `find` with an equality/range filter is a list
  filter, `insert_one` appends, `update_one` rewrites the first match,
  and `modified_count` follows MongoDB semantics: a `$set` that leaves
  the document unchanged counts zero modified documents.
* Python dicts used as accumulators keep insertion order; they are
  modelled as association lists with `addToMap` (get-or-zero plus add).
-/

namespace Electricity

/-- Microseconds in one day. -/
def microsPerDay : ℤ := 86400000000

/-- A timezone-aware UTC datetime as the server stores it. -/
structure DT where
  year : ℤ
  month : ℤ
  day : ℤ
  hour : ℤ
  minute : ℤ
  second : ℤ
  microsecond : ℤ
deriving DecidableEq, Repr

/-- Days since 1970-01-01 of a proleptic-Gregorian civil date
(days-from-civil algorithm). -/
def daysFromCivil (y m d : ℤ) : ℤ :=
  let y2 := if m ≤ 2 then y - 1 else y
  let era := (if 0 ≤ y2 then y2 else y2 - 399) / 400
  let yoe := y2 - era * 400
  let doy := (153 * (if 2 < m then m - 3 else m + 9) + 2) / 5 + d - 1
  let doe := yoe * 365 + yoe / 4 - yoe / 100 + doy
  era * 146097 + doe - 719468

/-- Absolute microseconds since 1970-01-01T00:00:00 UTC.  For valid UTC
datetimes this is ordered exactly like `isoformat()` strings, which is the
comparison the server's MongoDB range filters perform. -/
def toMicro (t : DT) : ℤ :=
  daysFromCivil t.year t.month t.day * microsPerDay
    + t.hour * 3600000000 + t.minute * 60000000 + t.second * 1000000
    + t.microsecond

/-- A usage log document (the generated `id` field carries no logic and is
omitted). -/
structure UsageLog where
  user_id : String
  appliance_id : String
  timestamp : DT
  duration_minutes : ℚ
  power_consumed : ℚ
deriving DecidableEq, Repr

/-- An appliance document (the `created_at` field carries no logic and is
omitted). -/
structure Appliance where
  id : String
  user_id : String
  name : String
  power_rating : ℚ
  location : String
  status : String
deriving DecidableEq, Repr

/-- A tariff document: the server's tariff model is flat — one fixed charge
and one per-kWh rate. -/
structure Tariff where
  name : String
  fixed_charge : ℚ
  per_unit_charge : ℚ
  effective_from : DT
deriving DecidableEq, Repr

/-- The MongoDB collections the billing engine touches. -/
structure DBState where
  appliances : List Appliance
  usage_logs : List UsageLog
  tariffs : List Tariff
deriving DecidableEq, Repr

/-- Round to the nearest integer, ties to even — the semantics of Python's
builtin `round`. -/
def roundHalfEven (q : ℚ) : ℤ :=
  let f := ⌊q⌋
  if q - f < 1/2 then f
  else if (1:ℚ)/2 < q - f then f + 1
  else if f % 2 = 0 then f else f + 1

/-- Python's `round(x, 2)`. -/
def round2 (q : ℚ) : ℚ := (roundHalfEven (100 * q) : ℚ) / 100

/-- `d[k] = d.get(k, 0) + v` on an insertion-ordered dict. -/
def addToMap (m : List (String × ℚ)) (k : String) (v : ℚ) : List (String × ℚ) :=
  match m with
  | [] => [(k, v)]
  | (k1, v1) :: rest =>
    if k1 = k then (k1, v1 + v) :: rest else (k1, v1) :: addToMap rest k v

/-- Sum of the values of an insertion-ordered dict. -/
def sumValues (m : List (String × ℚ)) : ℚ := (m.map Prod.snd).sum

/-- `appliance_map = {a.id: a.name for a in appliances}` followed by
`appliance_map.get(aid, "Unknown")`: on duplicate ids the comprehension
keeps the last entry. -/
def applianceName (apps : List Appliance) (aid : String) : String :=
  match apps.reverse.find? (fun a => a.id == aid) with
  | some a => a.name
  | none => "Unknown"

/-- Zero-pad to two digits (`strftime` field). -/
def pad2 (n : ℤ) : String := if n < 10 then "0" ++ toString n else toString n

/-- Zero-pad to four digits (`strftime` year). -/
def pad4 (n : ℤ) : String :=
  if n < 10 then "000" ++ toString n
  else if n < 100 then "00" ++ toString n
  else if n < 1000 then "0" ++ toString n
  else toString n

/-- `ts.strftime("%Y-%m-%d %H:00")`, the hour-bucket key. -/
def hourKey (t : DT) : String :=
  pad4 t.year ++ "-" ++ pad2 t.month ++ "-" ++ pad2 t.day ++ " "
    ++ pad2 t.hour ++ ":00"

/-- Truncate an absolute-microsecond instant to the start of its UTC day. -/
def dayStart (z : ℤ) : ℤ := (z / microsPerDay) * microsPerDay

/-- Microseconds in a time of day. -/
def hms (h m s : ℤ) : ℤ := h * 3600000000 + m * 60000000 + s * 1000000

/-- `now.replace(hour=0, minute=0, second=0)` — the microsecond field is
NOT reset by the source. -/
def replaceTime0 (t : DT) : DT := { t with hour := 0, minute := 0, second := 0 }

/-- `now.replace(day=1, hour=0, minute=0, second=0)` — the microsecond
field is NOT reset by the source. -/
def startOfMonth (t : DT) : DT :=
  { t with day := 1, hour := 0, minute := 0, second := 0 }

/-- The `[start, end]` endpoints (absolute microseconds) the dashboard
endpoint computes for each `period` value; the unmatched branch falls back
to "today".  `timedelta` subtraction shifts the instant by whole days;
`replace` on the result keeps the microsecond field. -/
def dashboardWindow (now : DT) (period : String) : ℤ × ℤ :=
  if period = "yesterday" then
    (dayStart (toMicro now - microsPerDay) + now.microsecond,
     dayStart (toMicro now - microsPerDay) + hms 23 59 59 + now.microsecond)
  else if period = "today" then (toMicro (replaceTime0 now), toMicro now)
  else if period = "week" then (toMicro now - 7 * microsPerDay, toMicro now)
  else if period = "month" then (toMicro now - 30 * microsPerDay, toMicro now)
  else if period = "year" then (toMicro now - 365 * microsPerDay, toMicro now)
  else (toMicro (replaceTime0 now), toMicro now)

/-- Result of `GET /api/dashboard`. -/
structure DashboardResult where
  total_consumption : ℚ
  appliance_breakdown : List (String × ℚ)
  hourly_data : List (String × ℚ)
  period : String
deriving DecidableEq, Repr

/-- Sum of `power_consumed` over a list of usage logs. -/
def totalPower (logs : List UsageLog) : ℚ :=
  (logs.map (fun l => l.power_consumed)).sum

/-- The dashboard's Mongo query: the user's logs with
`start <= timestamp <= end` (the filter uses `$gte` AND `$lte`, a closed
interval on both ends). -/
def dashboardLogs (now : DT) (userId : String) (period : String)
    (logs : List UsageLog) : List UsageLog :=
  logs.filter (fun l =>
    l.user_id == userId
      && decide ((dashboardWindow now period).1 ≤ toMicro l.timestamp)
      && decide (toMicro l.timestamp ≤ (dashboardWindow now period).2))

/-- `get_dashboard_data(user_id, period)` at instant `now`: filter the
user's usage logs to the period window, sum consumption, group by resolved
appliance name and by hour bucket.  Only `total_consumption` is rounded;
the endpoint never writes, so the state is returned unchanged. -/
def get_dashboard_data (now : DT) (userId : String) (period : String)
    (st : DBState) : DashboardResult × DBState :=
  let logs := dashboardLogs now userId period st.usage_logs
  let total_consumption := totalPower logs
  let appliance_usage := logs.foldl
    (fun m l => addToMap m (applianceName st.appliances l.appliance_id)
      l.power_consumed) []
  let hourly := logs.foldl
    (fun m l => addToMap m (hourKey l.timestamp) l.power_consumed) []
  ({ total_consumption := round2 total_consumption,
     appliance_breakdown := appliance_usage,
     hourly_data := hourly,
     period := period }, st)

/-- Result of `GET /api/bill`. -/
structure BillResult where
  fixed_charge : ℚ
  per_unit_charge : ℚ
  total_units : ℚ
  variable_charge : ℚ
  total_bill : ℚ
  month : String
deriving DecidableEq, Repr

/-- `now.strftime("%B")`. -/
def monthName (m : ℤ) : String :=
  if m = 1 then "January" else if m = 2 then "February"
  else if m = 3 then "March" else if m = 4 then "April"
  else if m = 5 then "May" else if m = 6 then "June"
  else if m = 7 then "July" else if m = 8 then "August"
  else if m = 9 then "September" else if m = 10 then "October"
  else if m = 11 then "November" else if m = 12 then "December" else ""

/-- The default tariff `calculate_bill` creates when the tariffs collection
is empty. -/
def defaultTariff (now : DT) : Tariff :=
  { name := "Standard Tariff", fixed_charge := 50, per_unit_charge := 8.5,
    effective_from := now }

/-- The tariff `calculate_bill` computes with: `find_one` takes the first
stored tariff, or the default one when the collection is empty. -/
def activeTariff (now : DT) (st : DBState) : Tariff :=
  match st.tariffs with
  | [] => defaultTariff now
  | t :: _ => t

/-- The bill's Mongo query: the user's logs with
`timestamp >= now.replace(day=1, hour=0, minute=0, second=0)`; the
boundary inherits `now`'s microsecond, and there is no upper bound. -/
def billLogs (now : DT) (userId : String) (logs : List UsageLog) :
    List UsageLog :=
  logs.filter (fun l =>
    l.user_id == userId
      && decide (toMicro (startOfMonth now) ≤ toMicro l.timestamp))

/-- `calculate_bill(user_id)` at instant `now`: when the tariffs collection
is empty the default tariff is INSERTED before being used; the charges are
the flat formula `fixed + units * per_unit_charge`. -/
def calculate_bill (now : DT) (userId : String) (st : DBState) :
    BillResult × DBState :=
  let tariff := activeTariff now st
  let st1 : DBState :=
    if st.tariffs = [] then { st with tariffs := st.tariffs ++ [defaultTariff now] }
    else st
  let total_units := totalPower (billLogs now userId st.usage_logs)
  let variable_charge := total_units * tariff.per_unit_charge
  let total_bill := tariff.fixed_charge + variable_charge
  ({ fixed_charge := tariff.fixed_charge,
     per_unit_charge := tariff.per_unit_charge,
     total_units := round2 total_units,
     variable_charge := round2 variable_charge,
     total_bill := round2 total_bill,
     month := monthName now.month ++ " " ++ pad4 now.year }, st1)

/-- Result of `GET /api/predict`; the no-data branch of the source returns
a dict without the `average_daily_units` key, modelled as `none`. -/
structure PredictResult where
  predicted_monthly_cost : ℚ
  predicted_units : ℚ
  average_daily_units : Option ℚ
deriving DecidableEq, Repr

/-- The forecast's Mongo query: the user's logs with
`timestamp >= now - timedelta(days=30)`. -/
def predictLogs (now : DT) (userId : String) (logs : List UsageLog) :
    List UsageLog :=
  logs.filter (fun l =>
    l.user_id == userId
      && decide (toMicro now - 30 * microsPerDay ≤ toMicro l.timestamp))

/-- The tariff `predict_cost` computes with: the first stored tariff, or an
in-memory default dict (never inserted) when the collection is empty. -/
def predictTariff (now : DT) (st : DBState) : Tariff :=
  match st.tariffs with
  | [] => { name := "", fixed_charge := 50, per_unit_charge := 8.5,
            effective_from := now }
  | t :: _ => t

/-- `predict_cost(user_id)` at instant `now`: usage logs are filtered to
the trailing 30 days; the daily average divides the window total by the
CONSTANT `days = 30`.  The endpoint never writes. -/
def predict_cost (now : DT) (userId : String) (st : DBState) :
    PredictResult × DBState :=
  let logs := predictLogs now userId st.usage_logs
  if logs = [] then
    ({ predicted_monthly_cost := 0, predicted_units := 0,
       average_daily_units := none }, st)
  else
    let days : ℚ := 30
    let avg_daily := totalPower logs / days
    let predicted_monthly_units := avg_daily * 30
    let tariff := predictTariff now st
    let predicted_cost :=
      tariff.fixed_charge + predicted_monthly_units * tariff.per_unit_charge
    ({ predicted_monthly_cost := round2 predicted_cost,
       predicted_units := round2 predicted_monthly_units,
       average_daily_units := some (round2 avg_daily) }, st)

/-- `update_one({"id": id}, {"$set": {"status": s}})`: rewrite the status
of the first matching document. -/
def setStatusFirst (applianceId status : String) :
    List Appliance → List Appliance
  | [] => []
  | a :: rest =>
    if a.id == applianceId then { a with status := status } :: rest
    else a :: setStatusFirst applianceId status rest

/-- `update_one(...).modified_count` under MongoDB semantics: 1 when the
first matching document actually changes, 0 when there is no match OR the
`$set` value equals the stored one. -/
def modifiedCount (applianceId status : String) (apps : List Appliance) : ℕ :=
  match apps.find? (fun a => a.id == applianceId) with
  | none => 0
  | some a => if a.status = status then 0 else 1

/-- `control_appliance(appliance_id, control)` at instant `now`: `$set` the
status on the first matching appliance; raise 404 "Appliance not found"
when `modified_count == 0`; on a transition to OFF, look the appliance up
again and insert a usage log of 90 simulated minutes with
`power_consumed = power_rating / 1000 * (duration / 60)`.
(The `find_one` miss branch is unreachable when `modified_count` is
nonzero.) -/
def control_appliance (now : DT) (applianceId : String) (status : String)
    (st : DBState) : Except String (String × DBState) :=
  let apps1 := setStatusFirst applianceId status st.appliances
  let st1 : DBState := { st with appliances := apps1 }
  if modifiedCount applianceId status st.appliances = 0 then
    Except.error "Appliance not found"
  else if status = "OFF" then
    match apps1.find? (fun a => a.id == applianceId) with
    | none => Except.error "Appliance not found"
    | some appliance =>
      let duration : ℚ := 90
      let power_consumed := appliance.power_rating / 1000 * (duration / 60)
      let usage : UsageLog :=
        { user_id := appliance.user_id, appliance_id := applianceId,
          timestamp := now, duration_minutes := duration,
          power_consumed := power_consumed }
      Except.ok ("Appliance status updated",
        { st1 with usage_logs := st1.usage_logs ++ [usage] })
  else Except.ok ("Appliance status updated", st1)

/-
Comparison definitions written from the specification's words (not from
the source), used to confront the spec with what the code computes.
-/

/-- Spec's slabbed tariff, variable charge: tiers (up to 50 units at rate
4.15), (up to 100 at 5.60), (up to 200 at 7.15), (above 200 at 8.20);
full-tier contributions below the containing tier plus the partial width
in it.  Comparison definition, from the spec's words. -/
def specSlabVariable (u : ℚ) : ℚ :=
  if u ≤ 50 then u * 4.15
  else if u ≤ 100 then 50 * 4.15 + (u - 50) * 5.6
  else if u ≤ 200 then 50 * 4.15 + 50 * 5.6 + (u - 100) * 7.15
  else 50 * 4.15 + 50 * 5.6 + 100 * 7.15 + (u - 200) * 8.2

/-- Spec's slabbed tariff, tier-dependent fixed charge (60 / 80 / 100 /
120).  Comparison definition, from the spec's words. -/
def specSlabFixed (u : ℚ) : ℚ :=
  if u ≤ 50 then 60 else if u ≤ 100 then 80 else if u ≤ 200 then 100
  else 120

/-- Spec's dashboard window semantics: consumption summed over the user's
records with timestamp in the half-open window `[start, end)`.  Comparison
definition, from the spec's words. -/
def specHalfOpenTotal (startM endM : ℤ) (userId : String)
    (logs : List UsageLog) : ℚ :=
  totalPower (logs.filter (fun l =>
    l.user_id == userId && decide (startM ≤ toMicro l.timestamp)
      && decide (toMicro l.timestamp < endM)))

/-- Spec's billing window semantics: consumption summed over the user's
records from day 1, 00:00 (UTC, microsecond 0) of the current month
through the present instant.  Comparison definition, from the spec's
words. -/
def specMonthToDateTotal (now : DT) (userId : String)
    (logs : List UsageLog) : ℚ :=
  let boundary : DT :=
    { now with day := 1, hour := 0, minute := 0, second := 0,
               microsecond := 0 }
  totalPower (logs.filter (fun l =>
    l.user_id == userId && decide (toMicro boundary ≤ toMicro l.timestamp)
      && decide (toMicro l.timestamp ≤ toMicro now)))

/-
Concrete fixtures used by the counterexamples and witnesses.
-/

/-- A reference instant: 2026-10-12T00:00:00+00:00. -/
def nowB : DT := ⟨2026, 10, 12, 0, 0, 0, 0⟩

/-- A stored flat tariff identical to the server's default. -/
def tariffStd : Tariff := ⟨"Standard Tariff", 50, 8.5, nowB⟩

/-- One usage record of 3.0 kWh on 2026-10-01, inside the trailing-30-day
forecast window of `nowB`. -/
def logC1 : UsageLog := ⟨"u1", "a1", ⟨2026, 10, 1, 10, 0, 0, 0⟩, 60, 3⟩

/-- State with exactly the single 3.0 kWh record and a stored tariff. -/
def stC1 : DBState := ⟨[], [logC1], [tariffStd]⟩

/-- State holding one usage record of `u` kWh inside the current billing
month of `nowB`, under tariff `t`. -/
def stWith (t : Tariff) (u : ℚ) : DBState :=
  ⟨[], [⟨"u1", "a1", ⟨2026, 10, 5, 0, 0, 0, 0⟩, 60, u⟩], [t]⟩

/-- An instant whose microsecond field is nonzero:
2026-10-12T05:30:15.123456+00:00. -/
def nowC3 : DT := ⟨2026, 10, 12, 5, 30, 15, 123456⟩

/-- A record at exactly 2026-10-01T00:00:00.000000, the calendar month
boundary of `nowC3`. -/
def logEarly : UsageLog := ⟨"u1", "a1", ⟨2026, 10, 1, 0, 0, 0, 0⟩, 60, 1⟩

/-- A record timestamped 2026-10-20, after the instant `nowC3`. -/
def logFuture : UsageLog := ⟨"u1", "a2", ⟨2026, 10, 20, 0, 0, 0, 0⟩, 60, 2⟩

/-- State holding the boundary record and the future record. -/
def stC3 : DBState := ⟨[], [logEarly, logFuture], [tariffStd]⟩

/-- A state with an empty tariffs collection. -/
def stT0 : DBState := ⟨[], [], []⟩

/-- A reference instant 2026-10-12T05:00:00+00:00. -/
def nowC5 : DT := ⟨2026, 10, 12, 5, 0, 0, 0⟩

/-- An appliance whose id resolves to the name "AC". -/
def appAC : Appliance := ⟨"a1", "u1", "AC", 1500, "Living Room", "ON"⟩

/-- One record of 0.004 kWh inside the "today" window of `nowC5`, for the
resolving appliance. -/
def logSmall : UsageLog := ⟨"u1", "a1", ⟨2026, 10, 12, 1, 0, 0, 0⟩, 60, 1/250⟩

/-- State with the resolving appliance and the 0.004 kWh record. -/
def stC5 : DBState := ⟨[appAC], [logSmall], [tariffStd]⟩

/-- A reference instant 2026-10-12T06:00:00+00:00. -/
def nowC6 : DT := ⟨2026, 10, 12, 6, 0, 0, 0⟩

/-- A record timestamped exactly at `nowC6`, the right endpoint of the
"today" window. -/
def logAtEnd : UsageLog := ⟨"u1", "a1", nowC6, 60, 5⟩

/-- State holding only the record at the window's right endpoint. -/
def stC6 : DBState := ⟨[], [logAtEnd], []⟩

/-- State with a stored tariff and no usage records at all. -/
def stC7 : DBState := ⟨[], [], [tariffStd]⟩

/-- An appliance that is already OFF. -/
def appOFF : Appliance := ⟨"a1", "u1", "AC", 1500, "Living Room", "OFF"⟩

/-- State holding only the already-OFF appliance. -/
def stC9 : DBState := ⟨[appOFF], [], []⟩

/-- An appliance that is ON, rated 120 W. -/
def appON : Appliance := ⟨"a2", "u1", "LED TV", 120, "Living Room", "ON"⟩

/-- State holding only the ON appliance. -/
def stC10 : DBState := ⟨[appON], [], []⟩

/-
Helper lemmas.
-/

/-- Adding `v` under key `k` grows the dict's value sum by exactly `v`. -/
lemma sumValues_addToMap (m : List (String × ℚ)) (k : String) (v : ℚ) :
    sumValues (addToMap m k v) = sumValues m + v := by
  induction m with
  | nil => simp [addToMap, sumValues]
  | cons p rest ih =>
    obtain ⟨k1, v1⟩ := p
    by_cases h : k1 = k
    · simp [addToMap, h, sumValues]
      ring
    · simp only [addToMap, if_neg h, sumValues, List.map_cons, List.sum_cons]
      simp only [sumValues] at ih
      rw [ih]
      ring

/-- Folding records into a dict keyed by any function adds exactly the
records' total consumption to the dict's value sum. -/
lemma sumValues_foldl (f : UsageLog → String) (logs : List UsageLog)
    (m : List (String × ℚ)) :
    sumValues (logs.foldl (fun acc l => addToMap acc (f l) l.power_consumed) m)
      = sumValues m + totalPower logs := by
  induction logs generalizing m with
  | nil => simp [totalPower]
  | cons l rest ih =>
    simp only [List.foldl_cons]
    rw [ih, sumValues_addToMap]
    simp only [totalPower, List.map_cons, List.sum_cons]
    ring

/-- After `setStatusFirst`, the first document matching the id is the old
first match with its status rewritten. -/
lemma find_setStatusFirst (aid s : String) (l : List Appliance)
    (a : Appliance) (h : l.find? (fun x => x.id == aid) = some a) :
    (setStatusFirst aid s l).find? (fun x => x.id == aid)
      = some { a with status := s } := by
  induction l with
  | nil => simp [List.find?] at h
  | cons b rest ih =>
    cases hb : (b.id == aid) with
    | true =>
      have hba : b = a := by
        have h2 := h
        simp only [List.find?, hb] at h2
        exact Option.some.inj h2
      subst hba
      simp [setStatusFirst, hb, List.find?]
    | false =>
      have h2 : rest.find? (fun x => x.id == aid) = some a := by
        simpa [List.find?, hb] using h
      simp [setStatusFirst, hb, List.find?, ih h2]

/-
Claims.
-/

/-- Claim C1, counterexample: the forecast divides by the constant 30, not
by the number of distinct days, so the single 3.0 kWh record on one
distinct day returns average_daily_units = 0.1 and predicted_units = 3.0 —
not 3.0 and 90.0 as claimed. -/
theorem C1_cex :
    (predict_cost nowB "u1" stC1).1.average_daily_units = some (1/10) ∧
    (predict_cost nowB "u1" stC1).1.predicted_units = 3 ∧
    ¬((predict_cost nowB "u1" stC1).1.average_daily_units = some 3 ∧
      (predict_cost nowB "u1" stC1).1.predicted_units = 90) := by
  refine ⟨?_, ?_, ?_⟩ <;>
    norm_num [predict_cost, predictLogs, stC1, logC1, nowB, toMicro,
      daysFromCivil, microsPerDay, totalPower, predictTariff, tariffStd,
      round2, roundHalfEven]

/-- Claim C1, amended: for a nonempty trailing-30-day window the forecast's
average daily usage is the window total divided by the constant 30
(regardless of how many distinct days appear), and predicted_units is that
average times 30. -/
theorem C1_amended (now : DT) (userId : String) (st : DBState)
    (h : predictLogs now userId st.usage_logs ≠ []) :
    (predict_cost now userId st).1.average_daily_units =
      some (round2 (totalPower (predictLogs now userId st.usage_logs) / 30)) ∧
    (predict_cost now userId st).1.predicted_units =
      round2 (totalPower (predictLogs now userId st.usage_logs) / 30 * 30) := by
  simp only [predict_cost]
  rw [if_neg h]
  exact ⟨rfl, rfl⟩

/-- Claim C1, witness: the single-record state satisfies the amended
claim's hypothesis, and there the average is 0.1 and the prediction 3.0. -/
theorem C1_witness :
    (predict_cost nowB "u1" stC1).1.average_daily_units =
      some (round2 (totalPower (predictLogs nowB "u1" stC1.usage_logs) / 30)) ∧
    (predict_cost nowB "u1" stC1).1.predicted_units =
      round2 (totalPower (predictLogs nowB "u1" stC1.usage_logs) / 30 * 30) ∧
    round2 (totalPower (predictLogs nowB "u1" stC1.usage_logs) / 30) = 1/10 ∧
    round2 (totalPower (predictLogs nowB "u1" stC1.usage_logs) / 30 * 30) = 3 := by
  have h : predictLogs nowB "u1" stC1.usage_logs ≠ [] := by
    norm_num [predictLogs, stC1, logC1, nowB, toMicro, daysFromCivil,
      microsPerDay]
  obtain ⟨h1, h2⟩ := C1_amended nowB "u1" stC1 h
  refine ⟨h1, h2, ?_, ?_⟩ <;>
    norm_num [predictLogs, stC1, logC1, nowB, toMicro, daysFromCivil,
      microsPerDay, totalPower, round2, roundHalfEven]

/-- Claim C2, counterexample: no tariff representable in the server's
tariff model makes the bill computation reproduce the spec's slabbed
schedule at both 50 units (variable 207.5, fixed 60) and 120 units
(variable 630.5, fixed 100): the server's fixed charge does not depend on
consumption, so the slabbed variant is not supported. -/
theorem C2_cex : ¬ ∃ t : Tariff,
    ((calculate_bill nowB "u1" (stWith t 50)).1.variable_charge
        = round2 (specSlabVariable 50) ∧
     (calculate_bill nowB "u1" (stWith t 50)).1.fixed_charge
        = specSlabFixed 50 ∧
     (calculate_bill nowB "u1" (stWith t 50)).1.total_bill
        = round2 (specSlabVariable 50 + specSlabFixed 50)) ∧
    ((calculate_bill nowB "u1" (stWith t 120)).1.variable_charge
        = round2 (specSlabVariable 120) ∧
     (calculate_bill nowB "u1" (stWith t 120)).1.fixed_charge
        = specSlabFixed 120 ∧
     (calculate_bill nowB "u1" (stWith t 120)).1.total_bill
        = round2 (specSlabVariable 120 + specSlabFixed 120)) := by
  rintro ⟨t, ⟨-, h50, -⟩, ⟨-, h120, -⟩⟩
  have e50 : (calculate_bill nowB "u1" (stWith t 50)).1.fixed_charge
      = t.fixed_charge := by
    simp [calculate_bill, activeTariff, stWith]
  have e120 : (calculate_bill nowB "u1" (stWith t 120)).1.fixed_charge
      = t.fixed_charge := by
    simp [calculate_bill, activeTariff, stWith]
  rw [e50] at h50
  rw [e120] at h120
  have s50 : specSlabFixed 50 = 60 := by norm_num [specSlabFixed]
  have s120 : specSlabFixed 120 = 100 := by norm_num [specSlabFixed]
  rw [s50] at h50
  rw [s120] at h120
  rw [h50] at h120
  norm_num at h120

/-- Claim C2, amended: the cost evaluation is the flat formula only — the
returned fixed charge is the stored tariff's flat fixed_charge independent
of consumption, the variable charge is total units times per_unit_charge,
and the total is their sum. -/
theorem C2_amended (now : DT) (userId : String) (st : DBState) (t : Tariff)
    (rest : List Tariff) (h : st.tariffs = t :: rest) :
    (calculate_bill now userId st).1.fixed_charge = t.fixed_charge ∧
    (calculate_bill now userId st).1.variable_charge =
      round2 (totalPower (billLogs now userId st.usage_logs)
        * t.per_unit_charge) ∧
    (calculate_bill now userId st).1.total_bill =
      round2 (t.fixed_charge
        + totalPower (billLogs now userId st.usage_logs)
          * t.per_unit_charge) := by
  refine ⟨?_, ?_, ?_⟩ <;> simp [calculate_bill, activeTariff, h]

/-- Claim C2, witness: 120 units consumed in the month under the server's
default tariff (fixed 50, 8.5/kWh) bill as fixed 50, variable 1020, total
1070 — a flat evaluation, not the slab schedule's 100 / 630.5 / 730.5. -/
theorem C2_witness :
    (calculate_bill nowB "u1" (stWith tariffStd 120)).1.fixed_charge
      = tariffStd.fixed_charge ∧
    (calculate_bill nowB "u1" (stWith tariffStd 120)).1.variable_charge
      = round2 (totalPower (billLogs nowB "u1"
          (stWith tariffStd 120).usage_logs) * tariffStd.per_unit_charge) ∧
    (calculate_bill nowB "u1" (stWith tariffStd 120)).1.total_bill
      = round2 (tariffStd.fixed_charge
          + totalPower (billLogs nowB "u1" (stWith tariffStd 120).usage_logs)
            * tariffStd.per_unit_charge) ∧
    round2 (totalPower (billLogs nowB "u1" (stWith tariffStd 120).usage_logs)
      * tariffStd.per_unit_charge) = 1020 ∧
    round2 (tariffStd.fixed_charge
      + totalPower (billLogs nowB "u1" (stWith tariffStd 120).usage_logs)
        * tariffStd.per_unit_charge) = 1070 := by
  obtain ⟨h1, h2, h3⟩ :=
    C2_amended nowB "u1" (stWith tariffStd 120) tariffStd [] rfl
  refine ⟨h1, h2, h3, ?_, ?_⟩ <;>
    norm_num [billLogs, stWith, tariffStd, startOfMonth, nowB, toMicro,
      daysFromCivil, microsPerDay, totalPower, round2, roundHalfEven]

/-- Claim C3, counterexample: at 2026-10-12T05:30:15.123456Z the bill
counts a record timestamped 2026-10-20 (after the present instant) and
drops a record at exactly 2026-10-01T00:00:00.000000 (the month boundary),
because the filter boundary inherits `now`'s microsecond and the query has
no upper bound: the code returns 2 total units where the claimed
month-to-date window holds 1. -/
theorem C3_cex :
    (calculate_bill nowC3 "u1" stC3).1.total_units = 2 ∧
    specMonthToDateTotal nowC3 "u1" stC3.usage_logs = 1 ∧
    (2 : ℚ) ≠ 1 := by
  refine ⟨?_, ?_, by norm_num⟩
  · norm_num [calculate_bill, activeTariff, stC3, tariffStd, billLogs,
      startOfMonth, logEarly, logFuture, nowC3, toMicro, daysFromCivil,
      microsPerDay, totalPower, round2, roundHalfEven]
  · norm_num [specMonthToDateTotal, stC3, logEarly, logFuture, nowC3,
      toMicro, daysFromCivil, microsPerDay, totalPower]

/-- Claim C3, amended: the bill sums `power_consumed` over exactly the
user's records with timestamp at or after
`now.replace(day=1, hour=0, minute=0, second=0)` — a boundary that
inherits the current instant's microsecond — with no upper time bound, so
records after the present instant are included too; records before that
boundary contribute nothing. -/
theorem C3_amended (now : DT) (userId : String) (st : DBState) :
    (calculate_bill now userId st).1.total_units =
      round2 (totalPower (billLogs now userId st.usage_logs)) ∧
    ∀ l : UsageLog, l ∈ billLogs now userId st.usage_logs ↔
      l ∈ st.usage_logs ∧ l.user_id = userId ∧
        toMicro (startOfMonth now) ≤ toMicro l.timestamp := by
  constructor
  · simp [calculate_bill]
  · intro l
    simp [billLogs, List.mem_filter, Bool.and_eq_true, beq_iff_eq,
      decide_eq_true_eq, and_assoc]

/-- Claim C4, counterexample: the bill operation is not read-only — run
against a state whose tariffs collection is empty it inserts the default
tariff, changing the state. -/
theorem C4_cex :
    (calculate_bill nowB "u1" stT0).2 ≠ stT0 ∧
    (calculate_bill nowB "u1" stT0).2.tariffs = [defaultTariff nowB] := by
  constructor
  · intro h
    have h2 := congrArg DBState.tariffs h
    simp [calculate_bill, stT0] at h2
  · simp [calculate_bill, stT0]

/-- Claim C4, amended: dashboard and forecast never change the stored
state; the bill changes it only when the tariffs collection is empty, in
which case it performs exactly one insert of the default tariff (the
appliances and usage-log collections are unchanged by all three). -/
theorem C4_amended (now : DT) (userId : String) (period : String)
    (st : DBState) :
    (get_dashboard_data now userId period st).2 = st ∧
    (predict_cost now userId st).2 = st ∧
    (calculate_bill now userId st).2 =
      (if st.tariffs = [] then
        { st with tariffs := st.tariffs ++ [defaultTariff now] }
       else st) := by
  refine ⟨rfl, ?_, rfl⟩
  by_cases hp : predictLogs now userId st.usage_logs = [] <;>
    simp [predict_cost, hp]

/-- The "today" window of `nowC5`, evaluated. -/
lemma windowC5 :
    dashboardWindow nowC5 "today" = (1791763200000000, 1791781200000000) := by
  decide

/-- The "today" window of `nowC6`, evaluated. -/
lemma windowC6 :
    dashboardWindow nowC6 "today" = (1791763200000000, 1791784800000000) := by
  decide

/-- Claim C5, counterexample: the returned `total_consumption` is rounded
while the breakdown values are not, so for a single resolving record of
0.004 kWh the breakdown values sum to 0.004 but the returned total is 0. -/
theorem C5_cex :
    sumValues
      ((get_dashboard_data nowC5 "u1" "today" stC5).1.appliance_breakdown)
      = 1/250 ∧
    (get_dashboard_data nowC5 "u1" "today" stC5).1.total_consumption = 0 ∧
    (1/250 : ℚ) ≠ 0 := by
  refine ⟨?_, ?_, by norm_num⟩ <;>
    simp only [get_dashboard_data, dashboardLogs, stC5, windowC5] <;>
    norm_num [logSmall, toMicro, daysFromCivil, microsPerDay, applianceName,
      appAC, addToMap, sumValues, totalPower, round2, roundHalfEven]

/-- Claim C5, amended: when every windowed record's appliance resolves, the
sum of the returned breakdown values equals the exact (pre-rounding) total
consumption of the window; the returned `total_consumption` is that sum
rounded to two digits. -/
theorem C5_amended (now : DT) (userId : String) (period : String)
    (st : DBState)
    (h : ∀ l ∈ dashboardLogs now userId period st.usage_logs,
      ∃ a ∈ st.appliances, a.id = l.appliance_id) :
    sumValues
      ((get_dashboard_data now userId period st).1.appliance_breakdown)
      = totalPower (dashboardLogs now userId period st.usage_logs) ∧
    (get_dashboard_data now userId period st).1.total_consumption
      = round2 (totalPower (dashboardLogs now userId period st.usage_logs)) := by
  refine ⟨?_, rfl⟩
  have e := sumValues_foldl
    (fun l => applianceName st.appliances l.appliance_id)
    (dashboardLogs now userId period st.usage_logs) []
  simpa [get_dashboard_data, sumValues] using e

/-- Claim C5, witness: the single-record resolving state satisfies the
amended claim's hypothesis and its breakdown sums to the exact window
total. -/
theorem C5_witness :
    sumValues
      ((get_dashboard_data nowC5 "u1" "today" stC5).1.appliance_breakdown)
      = totalPower (dashboardLogs nowC5 "u1" "today" stC5.usage_logs) ∧
    (get_dashboard_data nowC5 "u1" "today" stC5).1.total_consumption
      = round2 (totalPower (dashboardLogs nowC5 "u1" "today" stC5.usage_logs)) := by
  apply C5_amended
  intro l hl
  have e : dashboardLogs nowC5 "u1" "today" stC5.usage_logs = [logSmall] := by
    simp only [dashboardLogs, stC5, windowC5]
    norm_num [logSmall, toMicro, daysFromCivil, microsPerDay]
  rw [e] at hl
  simp only [List.mem_singleton] at hl
  subst hl
  exact ⟨appAC, by simp [stC5], rfl⟩

/-- Claim C6, counterexample: the dashboard window is closed on the right —
a record timestamped exactly at `end` (= `now` for the "today" period) is
counted: the code returns 5 total units where the spec's half-open window
[start, end) holds 0. -/
theorem C6_cex :
    (get_dashboard_data nowC6 "u1" "today" stC6).1.total_consumption = 5 ∧
    specHalfOpenTotal (dashboardWindow nowC6 "today").1
      (dashboardWindow nowC6 "today").2 "u1" stC6.usage_logs = 0 ∧
    (5 : ℚ) ≠ 0 := by
  refine ⟨?_, ?_, by norm_num⟩ <;>
    simp only [get_dashboard_data, dashboardLogs, specHalfOpenTotal, stC6,
      windowC6] <;>
    norm_num [logAtEnd, nowC6, toMicro, daysFromCivil, microsPerDay,
      totalPower, applianceName, addToMap, round2, roundHalfEven]

/-- Claim C6, amended: the dashboard aggregation includes exactly the
user's records whose timestamp lies in the CLOSED window [start, end]:
records at either endpoint, including one with timestamp equal to `end`,
are included. -/
theorem C6_amended (now : DT) (userId : String) (period : String)
    (st : DBState) :
    (∀ l : UsageLog, l ∈ dashboardLogs now userId period st.usage_logs ↔
      l ∈ st.usage_logs ∧ l.user_id = userId ∧
        (dashboardWindow now period).1 ≤ toMicro l.timestamp ∧
        toMicro l.timestamp ≤ (dashboardWindow now period).2) ∧
    (get_dashboard_data now userId period st).1.total_consumption =
      round2 (totalPower (dashboardLogs now userId period st.usage_logs)) := by
  refine ⟨?_, rfl⟩
  intro l
  simp [dashboardLogs, List.mem_filter, Bool.and_eq_true, beq_iff_eq,
    decide_eq_true_eq, and_assoc]

/-- Claim C7: with no usage record in the billing window the bill does not
fail — it returns total_units = 0, variable_charge = 0, and a total equal
to the active tariff's cost at zero consumption (the fixed charge is still
applied). -/
theorem C7_thm (now : DT) (userId : String) (st : DBState)
    (h : billLogs now userId st.usage_logs = []) :
    (calculate_bill now userId st).1.total_units = 0 ∧
    (calculate_bill now userId st).1.variable_charge = 0 ∧
    (calculate_bill now userId st).1.fixed_charge
      = (activeTariff now st).fixed_charge ∧
    (calculate_bill now userId st).1.total_bill =
      round2 ((activeTariff now st).fixed_charge
        + 0 * (activeTariff now st).per_unit_charge) := by
  refine ⟨?_, ?_, ?_, ?_⟩ <;>
    simp [calculate_bill, h, totalPower] <;>
    norm_num [round2, roundHalfEven]

/-- Claim C7, witness: a state with a stored tariff and no records bills
0 units, 0 variable charge and a total of 50 — the tariff's cost at zero
consumption. -/
theorem C7_witness :
    (calculate_bill nowB "u1" stC7).1.total_units = 0 ∧
    (calculate_bill nowB "u1" stC7).1.variable_charge = 0 ∧
    (calculate_bill nowB "u1" stC7).1.fixed_charge
      = (activeTariff nowB stC7).fixed_charge ∧
    (calculate_bill nowB "u1" stC7).1.total_bill =
      round2 ((activeTariff nowB stC7).fixed_charge
        + 0 * (activeTariff nowB stC7).per_unit_charge) ∧
    round2 ((activeTariff nowB stC7).fixed_charge
      + 0 * (activeTariff nowB stC7).per_unit_charge) = 50 := by
  obtain ⟨h1, h2, h3, h4⟩ := C7_thm nowB "u1" stC7 rfl
  exact ⟨h1, h2, h3, h4, by
    norm_num [activeTariff, stC7, tariffStd, round2, roundHalfEven]⟩

/-- Claim C8, counterexample: the dashboard returns appliance_breakdown
values at full precision — a 0.004 kWh record yields the breakdown value
1/250, which is not a value rounded to two fractional digits. -/
theorem C8_cex :
    (get_dashboard_data nowC5 "u1" "today" stC5).1.appliance_breakdown
      = [("AC", 1/250)] ∧
    round2 (1/250) ≠ 1/250 := by
  constructor
  · simp only [get_dashboard_data, dashboardLogs, stC5, windowC5]
    norm_num [logSmall, toMicro, daysFromCivil, microsPerDay,
      applianceName, appAC, addToMap]
  · norm_num [round2, roundHalfEven]

/-- Claim C8, amended: the bill's total_units / variable_charge /
total_bill, the forecast's three outputs, and the dashboard's
total_consumption are `round2` of exactly-computed values (rounding
happens only at this final step); the dashboard's appliance_breakdown and
hourly_data are returned at full precision, unrounded. -/
theorem C8_amended (now : DT) (userId : String) (period : String)
    (st : DBState)
    (hp : predictLogs now userId st.usage_logs ≠ []) :
    (calculate_bill now userId st).1.total_units
      = round2 (totalPower (billLogs now userId st.usage_logs)) ∧
    (calculate_bill now userId st).1.variable_charge
      = round2 (totalPower (billLogs now userId st.usage_logs)
          * (activeTariff now st).per_unit_charge) ∧
    (calculate_bill now userId st).1.total_bill
      = round2 ((activeTariff now st).fixed_charge
          + totalPower (billLogs now userId st.usage_logs)
            * (activeTariff now st).per_unit_charge) ∧
    (predict_cost now userId st).1.predicted_units
      = round2 (totalPower (predictLogs now userId st.usage_logs) / 30 * 30) ∧
    (predict_cost now userId st).1.average_daily_units
      = some (round2 (totalPower (predictLogs now userId st.usage_logs) / 30)) ∧
    (predict_cost now userId st).1.predicted_monthly_cost
      = round2 ((predictTariff now st).fixed_charge
          + totalPower (predictLogs now userId st.usage_logs) / 30 * 30
            * (predictTariff now st).per_unit_charge) ∧
    (get_dashboard_data now userId period st).1.total_consumption
      = round2 (totalPower (dashboardLogs now userId period st.usage_logs)) ∧
    (get_dashboard_data now userId period st).1.appliance_breakdown
      = (dashboardLogs now userId period st.usage_logs).foldl
          (fun m l => addToMap m (applianceName st.appliances l.appliance_id)
            l.power_consumed) [] ∧
    (get_dashboard_data now userId period st).1.hourly_data
      = (dashboardLogs now userId period st.usage_logs).foldl
          (fun m l => addToMap m (hourKey l.timestamp) l.power_consumed) [] := by
  refine ⟨rfl, rfl, rfl, ?_, ?_, ?_, rfl, rfl, rfl⟩ <;>
  · simp only [predict_cost]
    rw [if_neg hp]

/-- Claim C8, witness: the single-record state satisfies the amended
claim's hypothesis, and all the rounded-at-the-boundary equalities hold
there. -/
theorem C8_witness :
    (calculate_bill nowB "u1" stC1).1.total_units
      = round2 (totalPower (billLogs nowB "u1" stC1.usage_logs)) ∧
    (calculate_bill nowB "u1" stC1).1.variable_charge
      = round2 (totalPower (billLogs nowB "u1" stC1.usage_logs)
          * (activeTariff nowB stC1).per_unit_charge) ∧
    (calculate_bill nowB "u1" stC1).1.total_bill
      = round2 ((activeTariff nowB stC1).fixed_charge
          + totalPower (billLogs nowB "u1" stC1.usage_logs)
            * (activeTariff nowB stC1).per_unit_charge) ∧
    (predict_cost nowB "u1" stC1).1.predicted_units
      = round2 (totalPower (predictLogs nowB "u1" stC1.usage_logs) / 30 * 30) ∧
    (predict_cost nowB "u1" stC1).1.average_daily_units
      = some (round2 (totalPower (predictLogs nowB "u1" stC1.usage_logs) / 30)) ∧
    (predict_cost nowB "u1" stC1).1.predicted_monthly_cost
      = round2 ((predictTariff nowB stC1).fixed_charge
          + totalPower (predictLogs nowB "u1" stC1.usage_logs) / 30 * 30
            * (predictTariff nowB stC1).per_unit_charge) ∧
    (get_dashboard_data nowB "u1" "today" stC1).1.total_consumption
      = round2 (totalPower (dashboardLogs nowB "u1" "today" stC1.usage_logs)) ∧
    (get_dashboard_data nowB "u1" "today" stC1).1.appliance_breakdown
      = (dashboardLogs nowB "u1" "today" stC1.usage_logs).foldl
          (fun m l => addToMap m (applianceName stC1.appliances l.appliance_id)
            l.power_consumed) [] ∧
    (get_dashboard_data nowB "u1" "today" stC1).1.hourly_data
      = (dashboardLogs nowB "u1" "today" stC1.usage_logs).foldl
          (fun m l => addToMap m (hourKey l.timestamp) l.power_consumed) [] := by
  apply C8_amended
  norm_num [predictLogs, stC1, logC1, nowB, toMicro, daysFromCivil,
    microsPerDay]

/-- Claim C9: the status-toggle raises the 404 "Appliance not found" error
for an appliance that DOES exist when the requested status equals the
stored one, because `update_one` reports `modified_count = 0` for a no-op
`$set` — contradicting the claim that the error is raised if and only if
the id does not exist. -/
theorem C9_bug :
    control_appliance nowB "a1" "OFF" stC9
      = Except.error "Appliance not found" ∧
    appOFF ∈ stC9.appliances ∧ appOFF.id = "a1" ∧ appOFF.status = "OFF" := by
  refine ⟨?_, by simp [stC9], rfl, rfl⟩
  rfl

/-- Claim C10: a successful toggle to OFF appends exactly one usage record
with duration_minutes = 90, power_consumed = power_rating / 1000 × (90 /
60) and timestamp equal to the toggle instant; for a positive power rating
the record satisfies power_consumed ≥ 0 and duration_minutes > 0. -/
theorem C10_thm (now : DT) (aid : String) (st : DBState) (a : Appliance)
    (hfind : st.appliances.find? (fun x => x.id == aid) = some a)
    (hstatus : a.status ≠ "OFF") :
    control_appliance now aid "OFF" st =
      Except.ok ("Appliance status updated",
        { appliances := setStatusFirst aid "OFF" st.appliances,
          usage_logs := st.usage_logs ++
            [{ user_id := a.user_id, appliance_id := aid, timestamp := now,
               duration_minutes := 90,
               power_consumed := a.power_rating / 1000 * (90 / 60) }],
          tariffs := st.tariffs }) ∧
    (0 < a.power_rating →
      0 ≤ a.power_rating / 1000 * (90 / 60) ∧ (0 : ℚ) < 90) := by
  have hm : modifiedCount aid "OFF" st.appliances = 1 := by
    simp [modifiedCount, hfind, hstatus]
  have hf2 := find_setStatusFirst aid "OFF" st.appliances a hfind
  constructor
  · simp [control_appliance, hm, hf2]
  · intro hp
    refine ⟨?_, by norm_num⟩
    positivity

/-- Claim C10, witness: toggling the ON appliance rated 120 W to OFF
appends the 90-minute record with power 120 / 1000 × 1.5 kWh. -/
theorem C10_witness :
    control_appliance nowB "a2" "OFF" stC10 =
      Except.ok ("Appliance status updated",
        { appliances := setStatusFirst "a2" "OFF" stC10.appliances,
          usage_logs := stC10.usage_logs ++
            [{ user_id := appON.user_id, appliance_id := "a2",
               timestamp := nowB, duration_minutes := 90,
               power_consumed := appON.power_rating / 1000 * (90 / 60) }],
          tariffs := stC10.tariffs }) ∧
    (0 < appON.power_rating →
      0 ≤ appON.power_rating / 1000 * (90 / 60) ∧ (0 : ℚ) < 90) :=
  C10_thm nowB "a2" stC10 appON rfl (by simp [appON])

end Electricity
